import Mathlib

/-!
PolyFit: the linear-program data model (`math/linear_program.h`)

A shallow embedding of the class templates `Bound`, `Variable`,
`LinearExpression`, `LinearConstraint` and `LinearProgram`, together with the
two sample programs of `TestLinearProgramSolver`.

Conventions of the embedding

* The template parameter `FT` is taken to be the field of rationals, so that
  arithmetic on coefficients and bounds is exact.
* `std::size_t` indices and counters are natural numbers. No arithmetic is done
  on indices, and every counter is bounded by the `size()` of the vector it
  scans, so wrap-around cannot occur.
* `std::vector<T>` is `List T` (`push_back` appends at the end).
* `std::unordered_map<std::size_t, FT>` is a list of key/value entries; `find`
  returns the first entry with the key. Two maps are the same mapping when
  every key has the same lookup result.
* Member functions that mutate `*this` return the new object. What a member
  writes to `std::cerr` is given by a companion function with suffix `_cerr`.
-/

set_option linter.dupNamespace false

namespace PolyFit

/-! ## Bound -/

/-- The largest finite `double` (`DBL_MAX` of `<cfloat>`), as an exact rational. -/
def DBL_MAX : ℚ := (2 ^ 53 - 1) * 2 ^ 971

/-- The `enum BoundType { FIXED, LOWER, UPPER, DOUBLE, FREE }`. -/
inductive BoundType where
  | FIXED
  | LOWER
  | UPPER
  | DOUBLE
  | FREE
  deriving DecidableEq, Repr

/-- The data members of `class Bound`. -/
structure Bound where
  bound_type_ : BoundType
  lower_bound_ : ℚ
  upper_bound_ : ℚ
  deriving DecidableEq

namespace Bound

/-- The default constructor `Bound()`. -/
def Bound : PolyFit.Bound :=
  { bound_type_ := BoundType.FREE, lower_bound_ := -DBL_MAX, upper_bound_ := DBL_MAX }

/-- The accessor `bound_type()`. -/
def bound_type (b : PolyFit.Bound) : BoundType := b.bound_type_

/-- The member `set_bounds(type, lb, ub)`: the switch writes the side(s) the
type names, then `bound_type_ = type` is executed for every type. -/
def set_bounds (b : PolyFit.Bound) (type : BoundType) (lb ub : ℚ) : PolyFit.Bound :=
  let b1 : PolyFit.Bound :=
    match type with
    | BoundType.FIXED => { b with lower_bound_ := lb, upper_bound_ := lb }
    | BoundType.LOWER => { b with lower_bound_ := lb }
    | BoundType.UPPER => { b with upper_bound_ := ub }
    | BoundType.DOUBLE => { b with lower_bound_ := lb, upper_bound_ := ub }
    | BoundType.FREE => b
  { b1 with bound_type_ := type }

/-- The lines `set_bounds(type, lb, ub)` writes to `std::cerr`. -/
def set_bounds_cerr (b : PolyFit.Bound) (type : BoundType) (lb ub : ℚ) : List String :=
  (if b.bound_type_ ≠ BoundType.FREE then
      ["Warning: are you sure you want to changed the bound(s)"] else []) ++
  (match type with
    | BoundType.FIXED =>
        if |lb - ub| > 1 / 10000000000 then
          ["lower/upper bounds must be equal for FIXED bounds"] else []
    | BoundType.LOWER => []
    | BoundType.UPPER => []
    | BoundType.DOUBLE => []
    | BoundType.FREE => ["no FREE bound(s)"])

/-- The query `get_single_bound()`. -/
def get_single_bound (b : PolyFit.Bound) : ℚ :=
  match b.bound_type_ with
  | BoundType.FIXED => b.lower_bound_
  | BoundType.LOWER => b.lower_bound_
  | BoundType.UPPER => b.upper_bound_
  | BoundType.DOUBLE => b.lower_bound_
  | BoundType.FREE => b.lower_bound_

/-- The lines `get_single_bound()` writes to `std::cerr`. -/
def get_single_bound_cerr (b : PolyFit.Bound) : List String :=
  match b.bound_type_ with
  | BoundType.FIXED => []
  | BoundType.LOWER => []
  | BoundType.UPPER => []
  | BoundType.DOUBLE => ["please use get_double_bounds() to get double bound(s)"]
  | BoundType.FREE => ["no bound specified"]

/-- The query `get_double_bounds(lb, ub)`; the two output references are
returned as a pair `(lb, ub)`. -/
def get_double_bounds (b : PolyFit.Bound) : ℚ × ℚ := (b.lower_bound_, b.upper_bound_)

end Bound

/-! ## Variable -/

/-- The `enum VariableType { CONTINUOUS, INTEGER, BINARY }`. -/
inductive VariableType where
  | CONTINUOUS
  | INTEGER
  | BINARY
  deriving DecidableEq, Repr

/-- The class `Variable : public Bound`. -/
structure Variable extends Bound where
  variable_type_ : VariableType
  deriving DecidableEq

namespace Variable

/-- The constructor `Variable(type)`: the base `Bound()` is built first, and a
`BINARY` variable then calls `set_bounds(DOUBLE, 0.0, 1.0)` on it. -/
def Variable (type : VariableType) : PolyFit.Variable :=
  let base : PolyFit.Bound := Bound.Bound
  if type = VariableType.BINARY then
    { toBound := base.set_bounds BoundType.DOUBLE 0 1, variable_type_ := type }
  else
    { toBound := base, variable_type_ := type }

/-- The accessor `variable_type()`. -/
def variable_type (v : PolyFit.Variable) : VariableType := v.variable_type_

/-- The inherited member `set_bounds`, acting on the `Bound` base of a variable. -/
def set_bounds (v : PolyFit.Variable) (type : BoundType) (lb ub : ℚ) : PolyFit.Variable :=
  { v with toBound := v.toBound.set_bounds type lb ub }

end Variable

/-! ## The coefficient map -/

/-- The lookup `m.find(k)`: `none` stands for `m.end()`. -/
def umap_find : List (ℕ × ℚ) → ℕ → Option ℚ
  | [], _ => none
  | (k', v) :: m, k => if k' = k then some v else umap_find m k

/-- The access `m[k]` followed by a write `m[k] = f(m[k])`: an absent key is
first inserted with the value-initialised coefficient `0`. -/
def umap_update : List (ℕ × ℚ) → ℕ → (ℚ → ℚ) → List (ℕ × ℚ)
  | [], k, f => [(k, f 0)]
  | (k', v) :: m, k, f =>
      if k' = k then (k', f v) :: m else (k', v) :: umap_update m k f

/-! ## LinearExpression -/

/-- The class `LinearExpression`. -/
structure LinearExpression where
  coefficients_ : List (ℕ × ℚ)
  deriving DecidableEq

namespace LinearExpression

/-- The default constructor `LinearExpression()`: an empty map. -/
def LinearExpression : PolyFit.LinearExpression := { coefficients_ := [] }

/-- The member `add_coefficient(var_index, coeff)`: `coefficients_[var_index] = coeff`
when `find` reaches `end()`, and `coefficients_[var_index] += coeff` otherwise. -/
def add_coefficient (e : PolyFit.LinearExpression) (var_index : ℕ) (coeff : ℚ) :
    PolyFit.LinearExpression :=
  if umap_find e.coefficients_ var_index = none then
    { coefficients_ := umap_update e.coefficients_ var_index (fun _ => coeff) }
  else
    { coefficients_ := umap_update e.coefficients_ var_index (fun c => c + coeff) }

/-- The accessor `coefficients()`. -/
def coefficients (e : PolyFit.LinearExpression) : List (ℕ × ℚ) := e.coefficients_

end LinearExpression

/-! ## LinearConstraint -/

/-- The class `LinearConstraint : public LinearExpression, public Bound`. -/
structure LinearConstraint extends LinearExpression, Bound
  deriving DecidableEq

namespace LinearConstraint

/-- The default constructor `LinearConstraint()`: both bases default-constructed. -/
def LinearConstraint : PolyFit.LinearConstraint :=
  { toLinearExpression := LinearExpression.LinearExpression, toBound := Bound.Bound }

/-- The inherited member `add_coefficient`, acting on the expression base. -/
def add_coefficient (c : PolyFit.LinearConstraint) (var_index : ℕ) (coeff : ℚ) :
    PolyFit.LinearConstraint :=
  { c with toLinearExpression := c.toLinearExpression.add_coefficient var_index coeff }

/-- The inherited member `set_bounds`, acting on the bound base. -/
def set_bounds (c : PolyFit.LinearConstraint) (type : BoundType) (lb ub : ℚ) :
    PolyFit.LinearConstraint :=
  { c with toBound := c.toBound.set_bounds type lb ub }

/-- The inherited accessor `bound_type()`. -/
def bound_type (c : PolyFit.LinearConstraint) : BoundType := c.toBound.bound_type

end LinearConstraint

/-! ## LinearProgram -/

/-- The data members of `class LinearProgram`. -/
structure LinearProgram where
  variables_ : List Variable
  constraints_ : List LinearConstraint
  objective_ : LinearExpression
  objective_value_ : ℚ
  deriving DecidableEq

namespace LinearProgram

/-- The default constructor `LinearProgram()`: empty vectors and an empty
objective. The member `objective_value_` has no initialiser; its indeterminate
initial value is the argument. -/
def LinearProgram (objective_value_ : ℚ) : PolyFit.LinearProgram :=
  { variables_ := [], constraints_ := [],
    objective_ := LinearExpression.LinearExpression,
    objective_value_ := objective_value_ }

/-- The member `add_variable(var)`. -/
def add_variable (p : PolyFit.LinearProgram) (var : Variable) : PolyFit.LinearProgram :=
  { p with variables_ := p.variables_ ++ [var] }

/-- The member `add_variables(vars)`. -/
def add_variables (p : PolyFit.LinearProgram) (vars : List Variable) : PolyFit.LinearProgram :=
  { p with variables_ := p.variables_ ++ vars }

/-- The accessor `variables()` (the bare name is reserved in Lean). -/
def get_variables (p : PolyFit.LinearProgram) : List Variable := p.variables_

/-- The member `set_objective(obj)`. -/
def set_objective (p : PolyFit.LinearProgram) (obj : LinearExpression) : PolyFit.LinearProgram :=
  { p with objective_ := obj }

/-- The accessor `objective()`. -/
def objective (p : PolyFit.LinearProgram) : LinearExpression := p.objective_

/-- The member `add_constraint(cstr)`: returns early on a `FREE` bound type,
otherwise `push_back`. -/
def add_constraint (p : PolyFit.LinearProgram) (cstr : LinearConstraint) : PolyFit.LinearProgram :=
  if cstr.bound_type = BoundType.FREE then p
  else { p with constraints_ := p.constraints_ ++ [cstr] }

/-- The lines `add_constraint(cstr)` writes to `std::cerr`. -/
def add_constraint_cerr (cstr : LinearConstraint) : List String :=
  if cstr.bound_type = BoundType.FREE then
    ["incomplete constraint: no bound(s) specified"] else []

/-- The member `add_constraints(cstrs)`: one `insert` of the whole range at `end()`. -/
def add_constraints (p : PolyFit.LinearProgram) (cstrs : List LinearConstraint) :
    PolyFit.LinearProgram :=
  { p with constraints_ := p.constraints_ ++ cstrs }

/-- The accessor `constraints()`. -/
def constraints (p : PolyFit.LinearProgram) : List LinearConstraint := p.constraints_

/-- The member `num_continuous_variables()`: the loop over `variables_` with
its counter as accumulator. -/
def num_continuous_variables (p : PolyFit.LinearProgram) : ℕ :=
  p.variables_.foldl
    (fun num_continuous_var v =>
      if v.variable_type = VariableType.CONTINUOUS then num_continuous_var + 1
      else num_continuous_var) 0

/-- The member `num_integer_variables()`. -/
def num_integer_variables (p : PolyFit.LinearProgram) : ℕ :=
  p.variables_.foldl
    (fun num_iteger_var v =>
      if v.variable_type = VariableType.INTEGER then num_iteger_var + 1
      else num_iteger_var) 0

/-- The member `num_binary_variables()`. -/
def num_binary_variables (p : PolyFit.LinearProgram) : ℕ :=
  p.variables_.foldl
    (fun num_binary_var v =>
      if v.variable_type = VariableType.BINARY then num_binary_var + 1
      else num_binary_var) 0

/-- The member `is_mix_integer_program()`. -/
def is_mix_integer_program (p : PolyFit.LinearProgram) : Bool :=
  let num := p.num_continuous_variables
  decide (num > 0) && decide (num < p.variables_.length)

/-- The member `is_integer_program()`. -/
def is_integer_program (p : PolyFit.LinearProgram) : Bool :=
  let num := p.num_integer_variables
  decide (num > 0) && decide (num = p.variables_.length)

/-- The member `is_binary_proram()`. -/
def is_binary_proram (p : PolyFit.LinearProgram) : Bool :=
  let num := p.num_binary_variables
  decide (num > 0) && decide (num = p.variables_.length)

end LinearProgram

/-! ## The sample programs of `TestLinearProgramSolver` -/

/-- The program built by `mip_problem()` (`problem_mip.cpp`), up to the
`return`; the argument is the indeterminate `objective_value_`. -/
def mip_problem (objective_value_ : ℚ) : LinearProgram :=
  let problem := LinearProgram.LinearProgram objective_value_
  let x1 := (Variable.Variable VariableType.CONTINUOUS).set_bounds BoundType.DOUBLE 0 40
  let problem := problem.add_variable x1
  let x2 := Variable.Variable VariableType.CONTINUOUS
  let problem := problem.add_variable x2
  let x3 := Variable.Variable VariableType.CONTINUOUS
  let problem := problem.add_variable x3
  let x4 := (Variable.Variable VariableType.INTEGER).set_bounds BoundType.DOUBLE 2 3
  let problem := problem.add_variable x4
  let coeff : ℚ := -1
  let obj := LinearExpression.LinearExpression
  let obj := obj.add_coefficient 0 (coeff * 1)
  let obj := obj.add_coefficient 1 (coeff * 2)
  let obj := obj.add_coefficient 2 (coeff * 3)
  let obj := obj.add_coefficient 3 (coeff * 1)
  let problem := problem.set_objective obj
  let c1 := LinearConstraint.LinearConstraint
  let c1 := c1.add_coefficient 0 (-1)
  let c1 := c1.add_coefficient 1 1
  let c1 := c1.add_coefficient 2 1
  let c1 := c1.add_coefficient 3 10
  let c1 := c1.set_bounds BoundType.UPPER 0 20
  let problem := problem.add_constraint c1
  let c2 := LinearConstraint.LinearConstraint
  let c2 := c2.add_coefficient 0 1
  let c2 := c2.add_coefficient 1 (-3)
  let c2 := c2.add_coefficient 2 1
  let c2 := c2.set_bounds BoundType.UPPER 0 30
  let problem := problem.add_constraint c2
  let c3 := LinearConstraint.LinearConstraint
  let c3 := c3.add_coefficient 1 1
  let c3 := c3.add_coefficient 3 (-7 / 2)
  let c3 := c3.set_bounds BoundType.FIXED 0 0
  let problem := problem.add_constraint c3
  problem

/-- The program built by `lp_problem()` (`problem_lp.cpp`), up to the `return`;
the argument is the indeterminate `objective_value_`. -/
def lp_problem (objective_value_ : ℚ) : LinearProgram :=
  let problem := LinearProgram.LinearProgram objective_value_
  let x1 := (Variable.Variable VariableType.CONTINUOUS).set_bounds BoundType.DOUBLE 0 (1 / 2)
  let problem := problem.add_variable x1
  let x2 := (Variable.Variable VariableType.CONTINUOUS).set_bounds BoundType.DOUBLE 0 (1 / 2)
  let problem := problem.add_variable x2
  let x3 := (Variable.Variable VariableType.CONTINUOUS).set_bounds BoundType.DOUBLE 0 (1 / 2)
  let problem := problem.add_variable x3
  let obj := LinearExpression.LinearExpression
  let obj := obj.add_coefficient 0 (-1 / 2)
  let obj := obj.add_coefficient 1 (1 / 2)
  let obj := obj.add_coefficient 2 (-1)
  let problem := problem.set_objective obj
  let c1 := LinearConstraint.LinearConstraint
  let c1 := c1.add_coefficient 0 1
  let c1 := c1.add_coefficient 1 (-1 / 2)
  let c1 := c1.set_bounds BoundType.DOUBLE 0 (1 / 5)
  let problem := problem.add_constraint c1
  let c2 := LinearConstraint.LinearConstraint
  let c2 := c2.add_coefficient 1 (-1)
  let c2 := c2.add_coefficient 2 1
  let c2 := c2.set_bounds BoundType.UPPER 0 (2 / 5)
  let problem := problem.add_constraint c2
  problem

/-! ## Small programs used as concrete inputs -/

/-- The row `c3` of `mip_problem()`, `x2 - 3.5 x4 = 0`, on its own. -/
def sample_row : LinearConstraint :=
  ((LinearConstraint.LinearConstraint.add_coefficient 1 1).add_coefficient 3 (-7 / 2)).set_bounds
    BoundType.FIXED 0 0

/-- Two continuous variables and one integer variable, added in one call. -/
def two_continuous_one_integer : LinearProgram :=
  (LinearProgram.LinearProgram 0).add_variables
    [Variable.Variable VariableType.CONTINUOUS, Variable.Variable VariableType.CONTINUOUS,
      Variable.Variable VariableType.INTEGER]

/-- One integer variable and one binary variable, no continuous variable. -/
def one_integer_one_binary : LinearProgram :=
  (LinearProgram.LinearProgram 0).add_variables
    [Variable.Variable VariableType.INTEGER, Variable.Variable VariableType.BINARY]

/-! ## Call sequences -/

/-- A `Bound` after the calls `set_bounds(type, lb, ub)` of the list, made in
order on `b`. -/
def set_bounds_seq (b : Bound) (calls : List (BoundType × ℚ × ℚ)) : Bound :=
  calls.foldl (fun acc c => acc.set_bounds c.1 c.2.1 c.2.2) b

/-- The number of stored variables of kind `t`. -/
def count_of_kind (p : LinearProgram) (t : VariableType) : ℕ :=
  p.variables_.countP (fun v => decide (v.variable_type_ = t))

/-- An expression after the calls `add_coefficient(var_index, coeff)` of the
list, made in order on `e`. -/
def add_coefficient_seq (e : LinearExpression) (calls : List (ℕ × ℚ)) : LinearExpression :=
  calls.foldl (fun acc c => acc.add_coefficient c.1 c.2) e

/-- The keys of a coefficient map, one per stored entry. -/
def umap_keys (m : List (ℕ × ℚ)) : List ℕ := m.map Prod.fst

/-! ## The meaning of a program

The header `linear_program_solver.h`, which hands a program to a solver, is not
among the sources. The reading of a program as an optimisation problem below
follows the specification. A point is the list of values of the variables, in
the order of `variables()`. -/

/-- Modelled from the spec: the row value `Σ coeff·x` that the missing
`linear_program_solver.h` passes to a solver, the sum over the stored
coefficients of coefficient times the value of the variable with that index. -/
def expression_value (e : LinearExpression) (x : List ℚ) : ℚ :=
  (e.coefficients.map (fun kv => kv.2 * x.getD kv.1 0)).sum

/-- Modelled from the spec: the range a `Bound` stands for in the missing
`linear_program_solver.h`, `lower <= val <= upper` depending on the bound kind:
both sides for `FIXED` and `DOUBLE`, the lower side for `LOWER`, the upper side
for `UPPER`, and no restriction for `FREE` (an unset bound is fully free). -/
def bound_admits (b : Bound) (val : ℚ) : Bool :=
  match b.bound_type with
  | BoundType.FIXED => decide (b.lower_bound_ ≤ val) && decide (val ≤ b.upper_bound_)
  | BoundType.LOWER => decide (b.lower_bound_ ≤ val)
  | BoundType.UPPER => decide (val ≤ b.upper_bound_)
  | BoundType.DOUBLE => decide (b.lower_bound_ ≤ val) && decide (val ≤ b.upper_bound_)
  | BoundType.FREE => true

/-- Modelled from the spec: the values a variable kind allows in the missing
`linear_program_solver.h`: any value for `CONTINUOUS`, whole numbers for
`INTEGER` and `BINARY`. -/
def kind_admits (t : VariableType) (val : ℚ) : Bool :=
  match t with
  | VariableType.CONTINUOUS => true
  | VariableType.INTEGER => decide (val.den = 1)
  | VariableType.BINARY => decide (val.den = 1)

/-- Modelled from the spec: feasibility of a point for a program as the missing
`linear_program_solver.h` poses it: one value per variable, every value within
its variable's bound and kind, every row value within its row's bound. -/
def feasible (p : LinearProgram) (x : List ℚ) : Bool :=
  decide (x.length = p.get_variables.length) &&
  (p.get_variables.zip x).all
    (fun vx => bound_admits vx.1.toBound vx.2 && kind_admits vx.1.variable_type vx.2) &&
  p.constraints.all (fun c => bound_admits c.toBound (expression_value c.toLinearExpression x))

/-- Modelled from the spec: the objective value of a point, the row value of the
stored objective, which the missing `linear_program_solver.h` always minimises. -/
def objective_at (p : LinearProgram) (x : List ℚ) : ℚ :=
  expression_value p.objective x

/-- The point `x1=0.25; x2=0.1; x3=0.5` that `lp_problem()` prints as expected result. -/
def lp_expected : List ℚ := [1 / 4, 1 / 10, 1 / 2]

/-- The point `x1=40; x2=10.5; x3=19.5; x4=3` that `mip_problem()` prints as
expected result. -/
def mip_expected : List ℚ := [40, 21 / 2, 39 / 2, 3]

/-- The function `x1 + 2 x2 + 3 x3 + x4` that the header comment of
`problem_mip.cpp` asks to maximise, at a point. -/
def mip_maximand (x : List ℚ) : ℚ :=
  x.getD 0 0 + 2 * x.getD 1 0 + 3 * x.getD 2 0 + x.getD 3 0

end PolyFit

/-! ## Properties -/

namespace PolyFit
open BoundType VariableType

/-! ### The coefficient map -/

theorem umap_find_update_self (m : List (ℕ × ℚ)) (k : ℕ) (f : ℚ → ℚ) :
    umap_find (umap_update m k f) k ≠ none := by
  induction m with
  | nil => simp [umap_update, umap_find]
  | cons x m ih =>
      obtain ⟨k', v⟩ := x
      by_cases h : k' = k
      · simp [umap_update, umap_find, h]
      · simpa [umap_update, umap_find, h] using ih

theorem umap_update_update (m : List (ℕ × ℚ)) (k : ℕ) (f g : ℚ → ℚ) :
    umap_update (umap_update m k f) k g = umap_update m k (fun c => g (f c)) := by
  induction m with
  | nil => simp [umap_update]
  | cons x m ih =>
      obtain ⟨k', v⟩ := x
      by_cases h : k' = k
      · simp [umap_update, h]
      · simp [umap_update, h, ih]

/-- C1: for every expression `e`, index `i` and coefficients `a`, `b`, the calls
`add_coefficient(i, a)` then `add_coefficient(i, b)` leave the same coefficient
map as the single call `add_coefficient(i, a + b)`: the two objects are equal,
so every key has the same lookup result, whether or not `e` had an entry for `i`. -/
theorem add_coefficient_twice (e : LinearExpression) (i : ℕ) (a b : ℚ) :
    (e.add_coefficient i a).add_coefficient i b = e.add_coefficient i (a + b) ∧
    ∀ k, umap_find ((e.add_coefficient i a).add_coefficient i b).coefficients k =
      umap_find (e.add_coefficient i (a + b)).coefficients k := by
  have key : (e.add_coefficient i a).add_coefficient i b = e.add_coefficient i (a + b) := by
    by_cases h : umap_find e.coefficients_ i = none
    · simp [LinearExpression.add_coefficient, h, umap_find_update_self, umap_update_update]
    · simp [LinearExpression.add_coefficient, h, umap_find_update_self, umap_update_update,
        add_assoc]
  exact ⟨key, fun k => by rw [key]⟩

/-! ### Adding constraints -/

/-- C2: on the empty program, `add_constraints` with the one-element list holding
a default-constructed constraint (bound type `FREE`) stores that constraint: the
range insert of `add_constraints` has no bound-type check, unlike
`add_constraint`, which leaves the program unchanged on the same constraint. -/
theorem add_constraints_keeps_free_constraint :
    LinearConstraint.LinearConstraint.bound_type = FREE ∧
    ((LinearProgram.LinearProgram 0).add_constraints
        [LinearConstraint.LinearConstraint]).constraints =
      [LinearConstraint.LinearConstraint] ∧
    ((LinearProgram.LinearProgram 0).add_constraint
        LinearConstraint.LinearConstraint).constraints = [] :=
  ⟨rfl, rfl, rfl⟩

/-- C3: `add_constraint(c)` leaves the program unchanged when the bound type of
`c` is `FREE`; otherwise `constraints()` is the old sequence with `c` appended,
every existing row keeps its position, and the variables, the objective and the
objective value are unchanged. -/
theorem add_constraint_spec (p : LinearProgram) (c : LinearConstraint) :
    (c.bound_type = FREE → p.add_constraint c = p) ∧
    (c.bound_type ≠ FREE →
      (p.add_constraint c).constraints = p.constraints ++ [c] ∧
      (∀ i, i < p.constraints.length →
        (p.add_constraint c).constraints.get? i = p.constraints.get? i) ∧
      (p.add_constraint c).constraints.get? p.constraints.length = some c ∧
      (p.add_constraint c).get_variables = p.get_variables ∧
      (p.add_constraint c).objective = p.objective ∧
      (p.add_constraint c).objective_value_ = p.objective_value_) := by
  constructor
  · intro h
    simp [LinearProgram.add_constraint, h]
  · intro h
    have hc : (p.add_constraint c).constraints = p.constraints ++ [c] := by
      simp [LinearProgram.add_constraint, h, LinearProgram.constraints]
    refine ⟨hc, ?_, ?_, ?_, ?_, ?_⟩
    · intro i hi
      rw [hc]
      simp [List.getElem?_append_left hi]
    · rw [hc]
      simp
    all_goals simp [LinearProgram.add_constraint, h, LinearProgram.get_variables,
      LinearProgram.objective]

theorem add_constraint_spec_witness :
    (LinearConstraint.LinearConstraint.bound_type = FREE ∧
      (mip_problem 0).add_constraint LinearConstraint.LinearConstraint = mip_problem 0) ∧
    (sample_row.bound_type ≠ FREE ∧
      ((LinearProgram.LinearProgram 0).add_constraint sample_row).constraints =
        (LinearProgram.LinearProgram 0).constraints ++ [sample_row]) :=
  ⟨⟨rfl, (add_constraint_spec (mip_problem 0) LinearConstraint.LinearConstraint).1 rfl⟩,
    ⟨by decide, ((add_constraint_spec (LinearProgram.LinearProgram 0) sample_row).2
      (by decide)).1⟩⟩

/-! ### Bounds -/

/-- C4: right after construction a `BINARY` variable has bound type `DOUBLE`,
lower bound 0 and upper bound 1, so `get_double_bounds` gives `(0, 1)`; a
`CONTINUOUS` or `INTEGER` variable has bound type `FREE` with the default
sentinels `-DBL_MAX` and `DBL_MAX`. The kind tag is the constructor argument. -/
theorem variable_constructor_bounds :
    ((Variable.Variable BINARY).toBound.bound_type = DOUBLE ∧
      (Variable.Variable BINARY).lower_bound_ = 0 ∧
      (Variable.Variable BINARY).upper_bound_ = 1 ∧
      (Variable.Variable BINARY).toBound.get_double_bounds = (0, 1)) ∧
    ((Variable.Variable CONTINUOUS).toBound.bound_type = FREE ∧
      (Variable.Variable CONTINUOUS).lower_bound_ = -DBL_MAX ∧
      (Variable.Variable CONTINUOUS).upper_bound_ = DBL_MAX) ∧
    ((Variable.Variable INTEGER).toBound.bound_type = FREE ∧
      (Variable.Variable INTEGER).lower_bound_ = -DBL_MAX ∧
      (Variable.Variable INTEGER).upper_bound_ = DBL_MAX) ∧
    ∀ t, (Variable.Variable t).variable_type = t := by
  refine ⟨⟨rfl, rfl, rfl, rfl⟩, ⟨rfl, rfl, rfl⟩, ⟨rfl, rfl, rfl⟩, ?_⟩
  intro t
  cases t <;> rfl

/-- C5: from any prior state and for all `lb`, `ub`, after
`set_bounds(FIXED, lb, ub)` the bound type is `FIXED`, the stored lower and upper
bounds are both `lb`, and `get_single_bound()` returns `lb`; in particular after
`set_bounds(FIXED, v, v)` it returns `v`. -/
theorem set_bounds_fixed (b : Bound) (lb ub : ℚ) :
    (b.set_bounds FIXED lb ub).bound_type = FIXED ∧
    (b.set_bounds FIXED lb ub).lower_bound_ = lb ∧
    (b.set_bounds FIXED lb ub).upper_bound_ = lb ∧
    (b.set_bounds FIXED lb ub).get_single_bound = lb ∧
    ∀ v, (b.set_bounds FIXED v v).get_single_bound = v :=
  ⟨rfl, rfl, rfl, rfl, fun _ => rfl⟩

/-! ### Counting and classification -/

theorem foldl_count_kind (t : VariableType) (l : List Variable) (n : ℕ) :
    l.foldl (fun num v => if v.variable_type = t then num + 1 else num) n =
      n + l.countP (fun v => decide (v.variable_type_ = t)) := by
  induction l generalizing n with
  | nil => simp
  | cons v l ih =>
      simp only [Variable.variable_type] at ih ⊢
      by_cases h : v.variable_type_ = t
      · simp [List.foldl_cons, List.countP_cons, ih, h]
        omega
      · simp [List.foldl_cons, List.countP_cons, ih, h]

theorem num_continuous_eq_count (p : LinearProgram) :
    p.num_continuous_variables = count_of_kind p CONTINUOUS := by
  simp [LinearProgram.num_continuous_variables, count_of_kind, foldl_count_kind]

theorem num_integer_eq_count (p : LinearProgram) :
    p.num_integer_variables = count_of_kind p INTEGER := by
  simp [LinearProgram.num_integer_variables, count_of_kind, foldl_count_kind]

theorem num_binary_eq_count (p : LinearProgram) :
    p.num_binary_variables = count_of_kind p BINARY := by
  simp [LinearProgram.num_binary_variables, count_of_kind, foldl_count_kind]

theorem count_of_kind_pos {p : LinearProgram} {t : VariableType}
    (h : ∃ v ∈ p.variables_, v.variable_type_ = t) : 0 < count_of_kind p t := by
  obtain ⟨v, hv, ht⟩ := h
  exact List.countP_pos_iff.2 ⟨v, hv, by simpa using ht⟩

theorem count_of_kind_lt {p : LinearProgram} {t : VariableType}
    (h : ∃ v ∈ p.variables_, v.variable_type_ ≠ t) :
    count_of_kind p t < p.variables_.length := by
  obtain ⟨v, hv, ht⟩ := h
  refine lt_of_le_of_ne (List.countP_le_length _) ?_
  intro heq
  have hall := List.countP_eq_length.1 heq v hv
  exact ht (by simpa using hall)

/-- C6: each `num_*_variables()` is the number of stored variables of its kind;
`is_mix_integer_program()` holds iff `0 < num_continuous_variables() <
variables().size()`; `is_integer_program()` holds iff `num_integer_variables() ==
variables().size()` with that size positive; `is_binary_proram()` holds iff
`num_binary_variables() == variables().size()` with that size positive. -/
theorem classification_queries (p : LinearProgram) :
    (p.num_continuous_variables = count_of_kind p CONTINUOUS ∧
      p.num_integer_variables = count_of_kind p INTEGER ∧
      p.num_binary_variables = count_of_kind p BINARY) ∧
    (p.is_mix_integer_program = true ↔
      0 < p.num_continuous_variables ∧
        p.num_continuous_variables < p.get_variables.length) ∧
    (p.is_integer_program = true ↔
      p.num_integer_variables = p.get_variables.length ∧ 0 < p.get_variables.length) ∧
    (p.is_binary_proram = true ↔
      p.num_binary_variables = p.get_variables.length ∧ 0 < p.get_variables.length) := by
  refine ⟨⟨num_continuous_eq_count p, num_integer_eq_count p, num_binary_eq_count p⟩,
    ?_, ?_, ?_⟩
  · simp [LinearProgram.is_mix_integer_program, LinearProgram.get_variables]
  · simp only [LinearProgram.is_integer_program, LinearProgram.get_variables,
      Bool.and_eq_true, decide_eq_true_eq]
    omega
  · simp only [LinearProgram.is_binary_proram, LinearProgram.get_variables,
      Bool.and_eq_true, decide_eq_true_eq]
    omega

/-- C7: a program with at least one `CONTINUOUS` variable and at least one
variable that is not `CONTINUOUS` has `is_mix_integer_program()` true and both
`is_integer_program()` and `is_binary_proram()` false. -/
theorem mixed_program_classification (p : LinearProgram)
    (hc : ∃ v ∈ p.get_variables, v.variable_type = CONTINUOUS)
    (hn : ∃ v ∈ p.get_variables, v.variable_type ≠ CONTINUOUS) :
    p.is_mix_integer_program = true ∧ p.is_integer_program = false ∧
      p.is_binary_proram = false := by
  have h1 : 0 < count_of_kind p CONTINUOUS := count_of_kind_pos hc
  have h2 : count_of_kind p CONTINUOUS < p.variables_.length := count_of_kind_lt hn
  have h3 : count_of_kind p INTEGER < p.variables_.length := by
    obtain ⟨v, hv, ht⟩ := hc
    exact count_of_kind_lt ⟨v, hv, by
      simp only [Variable.variable_type] at ht
      simp [ht]⟩
  have h4 : count_of_kind p BINARY < p.variables_.length := by
    obtain ⟨v, hv, ht⟩ := hc
    exact count_of_kind_lt ⟨v, hv, by
      simp only [Variable.variable_type] at ht
      simp [ht]⟩
  refine ⟨?_, ?_, ?_⟩
  · simp [LinearProgram.is_mix_integer_program, num_continuous_eq_count, h1, h2]
  · simp [LinearProgram.is_integer_program, num_integer_eq_count]
    omega
  · simp [LinearProgram.is_binary_proram, num_binary_eq_count]
    omega

theorem mixed_program_classification_witness :
    ((mip_problem 0).get_variables.length = 4 ∧
      (mip_problem 0).num_continuous_variables = 3 ∧
      (mip_problem 0).num_integer_variables = 1 ∧
      (mip_problem 0).is_mix_integer_program = true ∧
      (mip_problem 0).is_integer_program = false ∧
      (mip_problem 0).is_binary_proram = false) ∧
    (two_continuous_one_integer.num_continuous_variables = 2 ∧
      two_continuous_one_integer.num_integer_variables = 1 ∧
      two_continuous_one_integer.is_mix_integer_program = true ∧
      two_continuous_one_integer.is_integer_program = false ∧
      two_continuous_one_integer.is_binary_proram = false) :=
  ⟨⟨by decide, by decide, by decide,
      mixed_program_classification (mip_problem 0)
        ⟨Variable.Variable CONTINUOUS, by simp [mip_problem, LinearProgram.get_variables,
          LinearProgram.add_variable, LinearProgram.LinearProgram, LinearProgram.set_objective,
          LinearProgram.add_constraint, LinearConstraint.bound_type, Bound.bound_type,
          LinearConstraint.set_bounds, Bound.set_bounds], rfl⟩
        ⟨(Variable.Variable INTEGER).set_bounds DOUBLE 2 3, by
          simp [mip_problem, LinearProgram.get_variables,
          LinearProgram.add_variable, LinearProgram.LinearProgram, LinearProgram.set_objective,
          LinearProgram.add_constraint, LinearConstraint.bound_type, Bound.bound_type,
          LinearConstraint.set_bounds, Bound.set_bounds], by decide⟩⟩,
    ⟨by decide, by decide,
      mixed_program_classification two_continuous_one_integer
        ⟨Variable.Variable CONTINUOUS, by
          simp [two_continuous_one_integer, LinearProgram.get_variables,
            LinearProgram.add_variables, LinearProgram.LinearProgram], rfl⟩
        ⟨Variable.Variable INTEGER, by
          simp [two_continuous_one_integer, LinearProgram.get_variables,
            LinearProgram.add_variables, LinearProgram.LinearProgram], by decide⟩⟩⟩

/-- C8: a program with no `CONTINUOUS` variable, at least one `INTEGER` variable
and at least one `BINARY` variable has all three of `is_mix_integer_program()`,
`is_integer_program()` and `is_binary_proram()` false. -/
theorem integer_binary_gap (p : LinearProgram)
    (hc : ∀ v ∈ p.get_variables, v.variable_type ≠ CONTINUOUS)
    (hi : ∃ v ∈ p.get_variables, v.variable_type = INTEGER)
    (hb : ∃ v ∈ p.get_variables, v.variable_type = BINARY) :
    p.is_mix_integer_program = false ∧ p.is_integer_program = false ∧
      p.is_binary_proram = false := by
  have h1 : count_of_kind p CONTINUOUS = 0 := by
    unfold count_of_kind
    rw [List.countP_eq_zero]
    intro v hv
    simpa using hc v hv
  have h3 : count_of_kind p INTEGER < p.variables_.length := by
    obtain ⟨v, hv, ht⟩ := hb
    exact count_of_kind_lt ⟨v, hv, by
      simp only [Variable.variable_type] at ht
      simp [ht]⟩
  have h4 : count_of_kind p BINARY < p.variables_.length := by
    obtain ⟨v, hv, ht⟩ := hi
    exact count_of_kind_lt ⟨v, hv, by
      simp only [Variable.variable_type] at ht
      simp [ht]⟩
  refine ⟨?_, ?_, ?_⟩
  · simp [LinearProgram.is_mix_integer_program, num_continuous_eq_count, h1]
  · simp [LinearProgram.is_integer_program, num_integer_eq_count]
    omega
  · simp [LinearProgram.is_binary_proram, num_binary_eq_count]
    omega

theorem integer_binary_gap_witness :
    one_integer_one_binary.num_continuous_variables = 0 ∧
    one_integer_one_binary.num_integer_variables = 1 ∧
    one_integer_one_binary.num_binary_variables = 1 ∧
    one_integer_one_binary.is_mix_integer_program = false ∧
    one_integer_one_binary.is_integer_program = false ∧
    one_integer_one_binary.is_binary_proram = false :=
  ⟨by decide, by decide, by decide,
    integer_binary_gap one_integer_one_binary
      (by
        intro v hv
        simp only [one_integer_one_binary, LinearProgram.get_variables,
          LinearProgram.add_variables, LinearProgram.LinearProgram, List.nil_append,
          List.mem_cons, List.mem_singleton, List.not_mem_nil, or_false] at hv
        rcases hv with rfl | rfl <;> decide)
      ⟨Variable.Variable INTEGER, by
        simp [one_integer_one_binary, LinearProgram.get_variables,
          LinearProgram.add_variables, LinearProgram.LinearProgram], rfl⟩
      ⟨Variable.Variable BINARY, by
        simp [one_integer_one_binary, LinearProgram.get_variables,
          LinearProgram.add_variables, LinearProgram.LinearProgram], rfl⟩⟩

/-! ### Repeated `set_bounds` -/

theorem one_lt_DBL_MAX : (1 : ℚ) < DBL_MAX := by
  unfold DBL_MAX
  have h1 : (1 : ℚ) ≤ 2 ^ 971 := one_le_pow₀ (by norm_num)
  have h2 : (1 : ℚ) < 2 ^ 53 - 1 := by norm_num
  nlinarith

/-- C9, as stated, fails: the bound of a freshly constructed `BINARY` variable is
the state after `set_bounds(DOUBLE, 0, 1)` on a fresh `Bound`; the call
`set_bounds(LOWER, 5, 7)` on it leaves the upper bound 1, while the same call on
a fresh `Bound` leaves the upper bound `DBL_MAX`. -/
theorem set_bounds_lower_keeps_old_upper :
    (Variable.Variable BINARY).toBound = set_bounds_seq Bound.Bound [(DOUBLE, 0, 1)] ∧
    ((Variable.Variable BINARY).toBound.set_bounds LOWER 5 7).upper_bound_ = 1 ∧
    (Bound.Bound.set_bounds LOWER 5 7).upper_bound_ = DBL_MAX ∧
    ((Variable.Variable BINARY).toBound.set_bounds LOWER 5 7).upper_bound_ ≠
      (Bound.Bound.set_bounds LOWER 5 7).upper_bound_ := by
  refine ⟨rfl, rfl, rfl, ?_⟩
  show (1 : ℚ) ≠ DBL_MAX
  exact ne_of_lt one_lt_DBL_MAX

/-- C9, amended: from every prior state `b`, `set_bounds(type, lb, ub)` yields the
same bound type as on a fresh `Bound`; for `FIXED` and `DOUBLE` the whole state is
the same as on a fresh `Bound`; for `LOWER` the lower bound is the same (`lb`) and
the upper bound is the one `b` had; for `UPPER` the upper bound is the same (`ub`)
and the lower bound is the one `b` had; for `FREE` both sides are the ones `b` had.
`get_single_bound()` is the same as on a fresh `Bound` for `FIXED`, `LOWER`,
`UPPER` and `DOUBLE`. -/
theorem set_bounds_last_write (b : Bound) (lb ub : ℚ) :
    (∀ type, (b.set_bounds type lb ub).bound_type =
      (Bound.Bound.set_bounds type lb ub).bound_type) ∧
    b.set_bounds FIXED lb ub = Bound.Bound.set_bounds FIXED lb ub ∧
    b.set_bounds DOUBLE lb ub = Bound.Bound.set_bounds DOUBLE lb ub ∧
    ((b.set_bounds LOWER lb ub).lower_bound_ = (Bound.Bound.set_bounds LOWER lb ub).lower_bound_ ∧
      (b.set_bounds LOWER lb ub).lower_bound_ = lb ∧
      (b.set_bounds LOWER lb ub).upper_bound_ = b.upper_bound_) ∧
    ((b.set_bounds UPPER lb ub).upper_bound_ = (Bound.Bound.set_bounds UPPER lb ub).upper_bound_ ∧
      (b.set_bounds UPPER lb ub).upper_bound_ = ub ∧
      (b.set_bounds UPPER lb ub).lower_bound_ = b.lower_bound_) ∧
    ((b.set_bounds FREE lb ub).lower_bound_ = b.lower_bound_ ∧
      (b.set_bounds FREE lb ub).upper_bound_ = b.upper_bound_) ∧
    (b.set_bounds FIXED lb ub).get_single_bound =
      (Bound.Bound.set_bounds FIXED lb ub).get_single_bound ∧
    (b.set_bounds LOWER lb ub).get_single_bound =
      (Bound.Bound.set_bounds LOWER lb ub).get_single_bound ∧
    (b.set_bounds UPPER lb ub).get_single_bound =
      (Bound.Bound.set_bounds UPPER lb ub).get_single_bound ∧
    (b.set_bounds DOUBLE lb ub).get_single_bound =
      (Bound.Bound.set_bounds DOUBLE lb ub).get_single_bound :=
  ⟨fun type => by cases type <;> rfl, rfl, rfl, ⟨rfl, rfl, rfl⟩, ⟨rfl, rfl, rfl⟩,
    ⟨rfl, rfl⟩, rfl, rfl, rfl, rfl⟩

theorem set_bounds_seq_snoc (b : Bound) (calls : List (BoundType × ℚ × ℚ))
    (c : BoundType × ℚ × ℚ) :
    set_bounds_seq b (calls ++ [c]) = (set_bounds_seq b calls).set_bounds c.1 c.2.1 c.2.2 := by
  simp [set_bounds_seq, List.foldl_append]

/-- C10, as stated, fails: one call `set_bounds(DOUBLE, 5, 1)` on a fresh `Bound`
gives bound type `DOUBLE` with lower bound 5 and upper bound 1. -/
theorem double_bounds_unordered :
    (set_bounds_seq Bound.Bound [(DOUBLE, 5, 1)]).bound_type = DOUBLE ∧
    (set_bounds_seq Bound.Bound [(DOUBLE, 5, 1)]).lower_bound_ = 5 ∧
    (set_bounds_seq Bound.Bound [(DOUBLE, 5, 1)]).upper_bound_ = 1 ∧
    ¬ (set_bounds_seq Bound.Bound [(DOUBLE, 5, 1)]).lower_bound_ ≤
      (set_bounds_seq Bound.Bound [(DOUBLE, 5, 1)]).upper_bound_ := by
  refine ⟨rfl, rfl, rfl, ?_⟩
  show ¬ ((5 : ℚ) ≤ 1)
  norm_num

/-- C10, amended: for a `Bound` reached from a fresh one by a sequence of
`set_bounds` calls in which every call of type `DOUBLE` passes `lb <= ub`, bound
type `DOUBLE` implies stored lower bound `<=` stored upper bound. -/
theorem double_bounds_ordered (calls : List (BoundType × ℚ × ℚ))
    (hcalls : ∀ c ∈ calls, c.1 = DOUBLE → c.2.1 ≤ c.2.2)
    (hkind : (set_bounds_seq Bound.Bound calls).bound_type = DOUBLE) :
    (set_bounds_seq Bound.Bound calls).lower_bound_ ≤
      (set_bounds_seq Bound.Bound calls).upper_bound_ := by
  rcases List.eq_nil_or_concat calls with rfl | ⟨cs, c, rfl⟩
  · exact absurd hkind (by decide)
  · rw [List.concat_eq_append] at hcalls hkind ⊢
    rw [set_bounds_seq_snoc] at hkind ⊢
    have hc : c.1 = DOUBLE := hkind
    have hle := hcalls c (by simp) hc
    rw [hc]
    exact hle

theorem double_bounds_ordered_witness :
    (set_bounds_seq Bound.Bound [(LOWER, 3, 0), (DOUBLE, 0, 40)]).bound_type = DOUBLE ∧
    (set_bounds_seq Bound.Bound [(LOWER, 3, 0), (DOUBLE, 0, 40)]).lower_bound_ ≤
      (set_bounds_seq Bound.Bound [(LOWER, 3, 0), (DOUBLE, 0, 40)]).upper_bound_ :=
  ⟨rfl, double_bounds_ordered [(LOWER, 3, 0), (DOUBLE, 0, 40)]
    (by
      intro c hc hd
      simp only [List.mem_cons, List.mem_singleton, List.not_mem_nil, or_false] at hc
      rcases hc with rfl | rfl
      · exact absurd hd (by decide)
      · norm_num)
    rfl⟩

/-! ### The single kinds of `set_bounds` -/

/-- C11: from every state and for all `lb`, `ub`, after `set_bounds(FREE, lb, ub)`
the bound type is `FREE` and neither argument is stored: the lower and upper
bounds are the ones held before the call, which on a fresh `Bound` are the
default sentinels `-DBL_MAX` and `DBL_MAX`. The call reports `no FREE bound(s)`. -/
theorem set_bounds_free (b : Bound) (lb ub : ℚ) :
    (b.set_bounds FREE lb ub).bound_type = FREE ∧
    (b.set_bounds FREE lb ub).lower_bound_ = b.lower_bound_ ∧
    (b.set_bounds FREE lb ub).upper_bound_ = b.upper_bound_ ∧
    (b.set_bounds FREE lb ub).get_double_bounds = b.get_double_bounds ∧
    Bound.Bound.set_bounds FREE lb ub = Bound.Bound ∧
    (Bound.Bound.set_bounds FREE lb ub).lower_bound_ = -DBL_MAX ∧
    (Bound.Bound.set_bounds FREE lb ub).upper_bound_ = DBL_MAX ∧
    "no FREE bound(s)" ∈ b.set_bounds_cerr FREE lb ub := by
  refine ⟨rfl, rfl, rfl, rfl, rfl, rfl, rfl, ?_⟩
  simp [Bound.set_bounds_cerr]

/-- C12: on a fresh `Bound`, `set_bounds(LOWER, lb, ub)` gives bound type `LOWER`
with lower bound `lb` and the upper bound still `DBL_MAX`, and
`set_bounds(UPPER, lb, ub)` gives bound type `UPPER` with upper bound `ub` and the
lower bound still `-DBL_MAX`; so row `c2` of `lp_problem()`, built with
`set_bounds(UPPER, 0.0, 0.4)`, has bound `UPPER` with `-DBL_MAX` and `0.4`. -/
theorem set_bounds_single_on_fresh (lb ub : ℚ) :
    ((Bound.Bound.set_bounds LOWER lb ub).bound_type = LOWER ∧
      (Bound.Bound.set_bounds LOWER lb ub).lower_bound_ = lb ∧
      (Bound.Bound.set_bounds LOWER lb ub).upper_bound_ = DBL_MAX) ∧
    ((Bound.Bound.set_bounds UPPER lb ub).bound_type = UPPER ∧
      (Bound.Bound.set_bounds UPPER lb ub).upper_bound_ = ub ∧
      (Bound.Bound.set_bounds UPPER lb ub).lower_bound_ = -DBL_MAX) ∧
    ∀ ov, ((lp_problem ov).constraints.get? 1).map (fun c => c.toBound) =
      some { bound_type_ := UPPER, lower_bound_ := -DBL_MAX, upper_bound_ := 2 / 5 } :=
  ⟨⟨rfl, rfl, rfl⟩, ⟨rfl, rfl, rfl⟩, fun _ => rfl⟩

/-- C13: from every state, `get_single_bound()` returns `lb` after
`set_bounds(LOWER, lb, ub)`, `ub` after `set_bounds(UPPER, lb, ub)` and the lower
bound `lb` after `set_bounds(DOUBLE, lb, ub)`; `get_double_bounds()` returns the
stored pair of lower and upper bound, whatever the bound type. -/
theorem get_single_bound_after_set_bounds (b : Bound) (lb ub : ℚ) :
    (b.set_bounds LOWER lb ub).get_single_bound = lb ∧
    (b.set_bounds UPPER lb ub).get_single_bound = ub ∧
    (b.set_bounds DOUBLE lb ub).get_single_bound = lb ∧
    b.get_double_bounds = (b.lower_bound_, b.upper_bound_) ∧
    (∀ type, (b.set_bounds type lb ub).get_double_bounds =
      ((b.set_bounds type lb ub).lower_bound_, (b.set_bounds type lb ub).upper_bound_)) ∧
    (b.set_bounds LOWER lb ub).get_double_bounds = (lb, b.upper_bound_) ∧
    (b.set_bounds UPPER lb ub).get_double_bounds = (b.lower_bound_, ub) ∧
    (b.set_bounds DOUBLE lb ub).get_double_bounds = (lb, ub) ∧
    (b.set_bounds FIXED lb ub).get_double_bounds = (lb, lb) :=
  ⟨rfl, rfl, rfl, rfl, fun _ => rfl, rfl, rfl, rfl, rfl⟩

/-! ### Order of insertion -/

theorem umap_find_update (m : List (ℕ × ℚ)) (k : ℕ) (f : ℚ → ℚ) (k' : ℕ) :
    umap_find (umap_update m k f) k' =
      if k = k' then some (f ((umap_find m k).getD 0)) else umap_find m k' := by
  induction m with
  | nil =>
      by_cases h : k = k' <;> simp [umap_update, umap_find, h]
  | cons x m ih =>
      obtain ⟨k0, v⟩ := x
      by_cases h0 : k0 = k
      · subst h0
        by_cases h : k0 = k' <;> simp [umap_update, umap_find, h]
      · by_cases h : k = k'
        · subst h
          simp [umap_update, umap_find, h0, ih]
        · by_cases h1 : k0 = k'
          · subst h1
            simp [umap_update, umap_find, h0, h]
          · simp [umap_update, umap_find, h0, h, h1, ih]

theorem umap_find_add_coefficient (e : LinearExpression) (i : ℕ) (a : ℚ) (k : ℕ) :
    umap_find (e.add_coefficient i a).coefficients k =
      if i = k then
        some (match umap_find e.coefficients i with
          | none => a
          | some c => c + a)
      else umap_find e.coefficients k := by
  unfold LinearExpression.add_coefficient LinearExpression.coefficients
  cases hf : umap_find e.coefficients_ i with
  | none => simp [umap_find_update]
  | some c => simp [umap_find_update, hf]

theorem umap_update_comm_perm (m : List (ℕ × ℚ)) (i j : ℕ) (hij : i ≠ j) (f g : ℚ → ℚ) :
    (umap_update (umap_update m i f) j g).Perm (umap_update (umap_update m j g) i f) := by
  induction m with
  | nil =>
      simp only [umap_update, if_neg hij, if_neg (Ne.symm hij)]
      exact List.Perm.swap _ _ _
  | cons x m ih =>
      obtain ⟨k, v⟩ := x
      by_cases hi : k = i
      · subst hi
        simp [umap_update, hij]
      · by_cases hj : k = j
        · subst hj
          simp [umap_update, hi]
        · simp only [umap_update, if_neg hi, if_neg hj]
          exact List.Perm.cons _ ih

theorem umap_keys_update_nodup (m : List (ℕ × ℚ)) (k : ℕ) (f : ℚ → ℚ)
    (h : (umap_keys m).Nodup) : (umap_keys (umap_update m k f)).Nodup ∧
      ∀ k', k' ∈ umap_keys (umap_update m k f) ↔ k' = k ∨ k' ∈ umap_keys m := by
  induction m with
  | nil => simp [umap_update, umap_keys]
  | cons x m ih =>
      obtain ⟨k0, v⟩ := x
      simp only [umap_keys, List.map_cons, List.nodup_cons] at h
      obtain ⟨hk0, hm⟩ := h
      have ih' := ih hm
      by_cases h0 : k0 = k
      · subst h0
        simp only [umap_update, if_true, umap_keys, List.map_cons, List.nodup_cons,
          List.mem_cons]
        exact ⟨⟨hk0, hm⟩, fun k' => by tauto⟩
      · simp only [umap_update, if_neg h0, umap_keys, List.map_cons, List.nodup_cons,
          List.mem_cons]
        refine ⟨⟨?_, ih'.1⟩, fun k' => ?_⟩
        · intro hmem
          rcases (ih'.2 k0).1 hmem with h1 | h1
          · exact h0 h1
          · exact hk0 h1
        · have := ih'.2 k'
          simp only [umap_keys] at this
          rw [this]
          tauto

theorem add_coefficient_keys_nodup (e : LinearExpression) (i : ℕ) (a : ℚ)
    (h : (umap_keys e.coefficients).Nodup) :
    (umap_keys (e.add_coefficient i a).coefficients).Nodup := by
  unfold LinearExpression.add_coefficient LinearExpression.coefficients
  split
  · exact (umap_keys_update_nodup _ _ _ h).1
  · exact (umap_keys_update_nodup _ _ _ h).1

theorem add_coefficient_seq_keys_nodup (e : LinearExpression) (calls : List (ℕ × ℚ))
    (h : (umap_keys e.coefficients).Nodup) :
    (umap_keys (add_coefficient_seq e calls).coefficients).Nodup := by
  induction calls generalizing e with
  | nil => simpa [add_coefficient_seq] using h
  | cons c calls ih =>
      simp only [add_coefficient_seq, List.foldl_cons]
      exact ih _ (add_coefficient_keys_nodup e c.1 c.2 h)

theorem add_coefficient_same_index (e : LinearExpression) (i : ℕ) (a b : ℚ) :
    (e.add_coefficient i a).add_coefficient i b = e.add_coefficient i (a + b) := by
  by_cases h : umap_find e.coefficients_ i = none
  · simp [LinearExpression.add_coefficient, h, umap_find_update_self, umap_update_update]
  · simp [LinearExpression.add_coefficient, h, umap_find_update_self, umap_update_update,
      add_assoc]

theorem add_coefficient_comm_perm (e : LinearExpression) (i j : ℕ) (a b : ℚ) :
    ((e.add_coefficient i a).add_coefficient j b).coefficients.Perm
      ((e.add_coefficient j b).add_coefficient i a).coefficients := by
  by_cases hij : i = j
  · subst hij
    rw [add_coefficient_same_index, add_coefficient_same_index, add_comm a b]
  · have hji : ¬ j = i := fun h => hij h.symm
    unfold LinearExpression.add_coefficient LinearExpression.coefficients
    by_cases hi : umap_find e.coefficients_ i = none <;>
      by_cases hj : umap_find e.coefficients_ j = none <;>
      simp only [hi, hj, if_true, if_false, umap_find_update, if_neg hij, if_neg hji] <;>
      exact umap_update_comm_perm _ _ _ hij _ _

/-- C14: for every expression `e`, indices `i`, `j` (equal or not) and
coefficients `a`, `b`, `add_coefficient(i, a)` then `add_coefficient(j, b)` gives
the same mapping as `add_coefficient(j, b)` then `add_coefficient(i, a)`: every
key has the same lookup result and the stored entries are the same up to their
order. The map holds at most one entry per index: `add_coefficient` keeps the
keys free of repetition, so they are so in every expression built from the empty
one by `add_coefficient` calls. -/
theorem add_coefficient_comm (e : LinearExpression) (i j : ℕ) (a b : ℚ) :
    (∀ k, umap_find ((e.add_coefficient i a).add_coefficient j b).coefficients k =
      umap_find ((e.add_coefficient j b).add_coefficient i a).coefficients k) ∧
    ((e.add_coefficient i a).add_coefficient j b).coefficients.Perm
      ((e.add_coefficient j b).add_coefficient i a).coefficients ∧
    ((umap_keys e.coefficients).Nodup →
      (umap_keys ((e.add_coefficient i a).add_coefficient j b).coefficients).Nodup ∧
      (umap_keys ((e.add_coefficient j b).add_coefficient i a).coefficients).Nodup) ∧
    ∀ calls : List (ℕ × ℚ),
      (umap_keys
        (add_coefficient_seq LinearExpression.LinearExpression calls).coefficients).Nodup := by
  refine ⟨?_, add_coefficient_comm_perm e i j a b, ?_, ?_⟩
  · intro k
    simp only [umap_find_add_coefficient]
    by_cases hij : i = j
    · subst hij
      by_cases hk : i = k
      · subst hk
        cases umap_find e.coefficients i <;> simp [add_comm, add_left_comm]
      · simp [hk]
    · have hji : ¬ j = i := fun h => hij h.symm
      by_cases hik : i = k
      · subst hik
        simp [hji]
      · by_cases hjk : j = k
        · subst hjk
          simp [hij]
        · simp [hik, hjk]
  · intro h
    exact ⟨add_coefficient_keys_nodup _ _ _ (add_coefficient_keys_nodup _ _ _ h),
      add_coefficient_keys_nodup _ _ _ (add_coefficient_keys_nodup _ _ _ h)⟩
  · intro calls
    exact add_coefficient_seq_keys_nodup _ _ (by
      simp [LinearExpression.LinearExpression, LinearExpression.coefficients, umap_keys])

theorem add_coefficient_comm_witness :
    (umap_keys (LinearExpression.LinearExpression.add_coefficient 1 1).coefficients).Nodup ∧
    (umap_keys (((LinearExpression.LinearExpression.add_coefficient 1 1).add_coefficient 3
        (-7 / 2)).add_coefficient 1 2).coefficients).Nodup ∧
    (((LinearExpression.LinearExpression.add_coefficient 1 1).add_coefficient 3
        (-7 / 2)).add_coefficient 1 2).coefficients.Perm
      (((LinearExpression.LinearExpression.add_coefficient 1 1).add_coefficient 1
        2).add_coefficient 3 (-7 / 2)).coefficients :=
  have h : (umap_keys (LinearExpression.LinearExpression.add_coefficient 1 1).coefficients).Nodup :=
    by decide
  ⟨h, ((add_coefficient_comm (LinearExpression.LinearExpression.add_coefficient 1 1) 3 1
      (-7 / 2) 2).2.2.1 h).1,
    (add_coefficient_comm (LinearExpression.LinearExpression.add_coefficient 1 1) 3 1
      (-7 / 2) 2).2.1⟩

/-! ### Adding variables -/

theorem foldl_add_variable (vs : List Variable) (p : LinearProgram) :
    vs.foldl LinearProgram.add_variable p = { p with variables_ := p.variables_ ++ vs } := by
  induction vs generalizing p with
  | nil => simp
  | cons v vs ih => simp [List.foldl_cons, ih, LinearProgram.add_variable]

/-- C15: after `add_variable(v)`, `variables()` is the old sequence with `v`
appended, so `v` sits at the old size; after `add_variables(vs)`, `variables()` is
the old sequence followed by `vs` in order, which is also the result of calling
`add_variable` on each element of `vs` in order. In both cases every existing
variable keeps its index and `constraints()` and `objective()` are unchanged. -/
theorem add_variable_spec (p : LinearProgram) (v : Variable) (vs : List Variable) :
    ((p.add_variable v).get_variables = p.get_variables ++ [v] ∧
      (p.add_variable v).get_variables.get? p.get_variables.length = some v ∧
      (∀ i, i < p.get_variables.length →
        (p.add_variable v).get_variables.get? i = p.get_variables.get? i) ∧
      (p.add_variable v).constraints = p.constraints ∧
      (p.add_variable v).objective = p.objective) ∧
    ((p.add_variables vs).get_variables = p.get_variables ++ vs ∧
      p.add_variables vs = vs.foldl LinearProgram.add_variable p ∧
      (∀ i, i < p.get_variables.length →
        (p.add_variables vs).get_variables.get? i = p.get_variables.get? i) ∧
      (∀ i, i < vs.length →
        (p.add_variables vs).get_variables.get? (p.get_variables.length + i) = vs.get? i) ∧
      (p.add_variables vs).constraints = p.constraints ∧
      (p.add_variables vs).objective = p.objective) := by
  refine ⟨⟨rfl, ?_, ?_, rfl, rfl⟩, ⟨rfl, ?_, ?_, ?_, rfl, rfl⟩⟩
  · simp [LinearProgram.add_variable, LinearProgram.get_variables]
  · intro i hi
    simp only [LinearProgram.get_variables] at hi
    simp [LinearProgram.add_variable, LinearProgram.get_variables,
      List.getElem?_append_left hi]
  · rw [foldl_add_variable]
    rfl
  · intro i hi
    simp only [LinearProgram.get_variables] at hi
    simp [LinearProgram.add_variables, LinearProgram.get_variables,
      List.getElem?_append_left hi]
  · intro i _
    simp only [LinearProgram.add_variables, LinearProgram.get_variables, List.get?_eq_getElem?]
    rw [List.getElem?_append_right (Nat.le_add_right _ _), Nat.add_sub_cancel_left]

theorem add_variable_spec_witness :
    ((mip_problem 0).add_variable (Variable.Variable BINARY)).get_variables.get? 2 =
      (mip_problem 0).get_variables.get? 2 ∧
    ((mip_problem 0).add_variables
        [Variable.Variable BINARY, Variable.Variable INTEGER]).get_variables.get?
      ((mip_problem 0).get_variables.length + 1) =
        [Variable.Variable BINARY, Variable.Variable INTEGER].get? 1 :=
  ⟨(add_variable_spec (mip_problem 0) (Variable.Variable BINARY) []).1.2.2.1 2 (by decide),
    (add_variable_spec (mip_problem 0) (Variable.Variable BINARY)
      [Variable.Variable BINARY, Variable.Variable INTEGER]).2.2.2.2.1 1 (by decide)⟩

/-! ### The three counts and the three predicates together -/

theorem countP_kinds_sum (l : List Variable) :
    l.countP (fun v => decide (v.variable_type_ = CONTINUOUS)) +
      l.countP (fun v => decide (v.variable_type_ = INTEGER)) +
      l.countP (fun v => decide (v.variable_type_ = BINARY)) = l.length := by
  induction l with
  | nil => simp
  | cons v l ih =>
      cases hv : v.variable_type_ <;> simp [List.countP_cons, hv] <;> omega

/-- C19: for every program, `num_continuous_variables() + num_integer_variables()
+ num_binary_variables()` equals `variables().size()`; for the programs built by
`lp_problem()` and `mip_problem()`, whose drivers print this sum, it is 3 and 4. -/
theorem num_variables_sum (p : LinearProgram) :
    p.num_continuous_variables + p.num_integer_variables + p.num_binary_variables =
      p.get_variables.length ∧
    (∀ ov, (lp_problem ov).num_continuous_variables + (lp_problem ov).num_integer_variables +
      (lp_problem ov).num_binary_variables = 3) ∧
    (∀ ov, (mip_problem ov).num_continuous_variables + (mip_problem ov).num_integer_variables +
      (mip_problem ov).num_binary_variables = 4) := by
  refine ⟨?_, fun _ => rfl, fun _ => rfl⟩
  rw [num_continuous_eq_count, num_integer_eq_count, num_binary_eq_count]
  exact countP_kinds_sum p.variables_

/-- C20: for every program at most one of `is_mix_integer_program()`,
`is_integer_program()` and `is_binary_proram()` is true, and all three are false
when the program has no variable or only `CONTINUOUS` variables, as for the
program built by `lp_problem()`. -/
theorem classification_exclusive (p : LinearProgram) :
    ¬ (p.is_mix_integer_program = true ∧ p.is_integer_program = true) ∧
    ¬ (p.is_mix_integer_program = true ∧ p.is_binary_proram = true) ∧
    ¬ (p.is_integer_program = true ∧ p.is_binary_proram = true) ∧
    (p.get_variables = [] →
      p.is_mix_integer_program = false ∧ p.is_integer_program = false ∧
        p.is_binary_proram = false) ∧
    ((∀ v ∈ p.get_variables, v.variable_type = CONTINUOUS) →
      p.is_mix_integer_program = false ∧ p.is_integer_program = false ∧
        p.is_binary_proram = false) := by
  have hsum := countP_kinds_sum p.variables_
  have hc := num_continuous_eq_count p
  have hi := num_integer_eq_count p
  have hb := num_binary_eq_count p
  simp only [count_of_kind] at hc hi hb
  have hall : (∀ v ∈ p.get_variables, v.variable_type = CONTINUOUS) →
      p.is_mix_integer_program = false ∧ p.is_integer_program = false ∧
        p.is_binary_proram = false := by
    intro h
    have hfull : p.variables_.countP (fun v => decide (v.variable_type_ = CONTINUOUS)) =
        p.variables_.length := by
      rw [List.countP_eq_length]
      intro v hv
      simpa [Variable.variable_type] using h v hv
    refine ⟨?_, ?_, ?_⟩
    · simp only [LinearProgram.is_mix_integer_program, Bool.and_eq_false_iff,
        decide_eq_false_iff_not]
      omega
    · simp only [LinearProgram.is_integer_program, Bool.and_eq_false_iff,
        decide_eq_false_iff_not]
      omega
    · simp only [LinearProgram.is_binary_proram, Bool.and_eq_false_iff,
        decide_eq_false_iff_not]
      omega
  refine ⟨?_, ?_, ?_, ?_, hall⟩
  · simp only [LinearProgram.is_mix_integer_program, LinearProgram.is_integer_program,
      Bool.and_eq_true, decide_eq_true_eq]
    omega
  · simp only [LinearProgram.is_mix_integer_program, LinearProgram.is_binary_proram,
      Bool.and_eq_true, decide_eq_true_eq]
    omega
  · simp only [LinearProgram.is_integer_program, LinearProgram.is_binary_proram,
      Bool.and_eq_true, decide_eq_true_eq]
    omega
  · intro hnil
    exact hall (by simp [hnil])

theorem classification_exclusive_witness :
    (∀ v ∈ (lp_problem 0).get_variables, v.variable_type = CONTINUOUS) ∧
    ((lp_problem 0).is_mix_integer_program = false ∧ (lp_problem 0).is_integer_program = false ∧
      (lp_problem 0).is_binary_proram = false) ∧
    ((LinearProgram.LinearProgram 0).is_mix_integer_program = false ∧
      (LinearProgram.LinearProgram 0).is_integer_program = false ∧
      (LinearProgram.LinearProgram 0).is_binary_proram = false) :=
  have h : ∀ v ∈ (lp_problem 0).get_variables, v.variable_type = CONTINUOUS := by
    intro v hv
    have hvars : (lp_problem 0).get_variables =
        [(Variable.Variable CONTINUOUS).set_bounds DOUBLE 0 (1 / 2),
          (Variable.Variable CONTINUOUS).set_bounds DOUBLE 0 (1 / 2),
          (Variable.Variable CONTINUOUS).set_bounds DOUBLE 0 (1 / 2)] := rfl
    rw [hvars] at hv
    simp only [List.mem_cons, List.mem_singleton, List.not_mem_nil, or_false, or_self] at hv
    rw [hv]
    rfl
  ⟨h, (classification_exclusive (lp_problem 0)).2.2.2.2 h,
    (classification_exclusive (LinearProgram.LinearProgram 0)).2.2.2.1 rfl⟩

/-! ### The sample programs as optimisation problems -/

theorem lp_problem_fields (ov : ℚ) :
    lp_problem ov =
      { variables_ :=
          [{ bound_type_ := DOUBLE, lower_bound_ := 0, upper_bound_ := 1 / 2,
              variable_type_ := CONTINUOUS },
            { bound_type_ := DOUBLE, lower_bound_ := 0, upper_bound_ := 1 / 2,
              variable_type_ := CONTINUOUS },
            { bound_type_ := DOUBLE, lower_bound_ := 0, upper_bound_ := 1 / 2,
              variable_type_ := CONTINUOUS }],
        constraints_ :=
          [{ coefficients_ := [(0, 1), (1, -1 / 2)], bound_type_ := DOUBLE,
              lower_bound_ := 0, upper_bound_ := 1 / 5 },
            { coefficients_ := [(1, -1), (2, 1)], bound_type_ := UPPER,
              lower_bound_ := -DBL_MAX, upper_bound_ := 2 / 5 }],
        objective_ := { coefficients_ := [(0, -1 / 2), (1, 1 / 2), (2, -1)] },
        objective_value_ := ov } :=
  rfl

theorem lp_expected_feasible (ov : ℚ) : feasible (lp_problem ov) lp_expected = true := by
  rw [lp_problem_fields]
  simp only [lp_expected, feasible, bound_admits, kind_admits, expression_value,
    LinearProgram.get_variables, LinearProgram.constraints, Bound.bound_type,
    Variable.variable_type, LinearExpression.coefficients, List.zip_cons_cons,
    List.zip_nil_right, List.all_cons, List.all_nil, List.map_cons, List.map_nil,
    List.sum_cons, List.sum_nil, List.length_cons, List.length_nil, Bool.and_true,
    Bool.and_eq_true, decide_eq_true_eq, List.getD_cons_zero, List.getD_cons_succ]
  norm_num

theorem lp_expected_objective (ov : ℚ) : objective_at (lp_problem ov) lp_expected = -23 / 40 := by
  rw [lp_problem_fields]
  simp only [lp_expected, objective_at, expression_value, LinearProgram.objective,
    LinearExpression.coefficients, List.map_cons, List.map_nil, List.sum_cons, List.sum_nil,
    List.getD_cons_zero, List.getD_cons_succ]
  norm_num

theorem lp_problem_feasible_bound (ov : ℚ) (x : List ℚ)
    (hx : feasible (lp_problem ov) x = true) : -23 / 40 ≤ objective_at (lp_problem ov) x := by
  rw [lp_problem_fields] at hx ⊢
  rcases x with _ | ⟨a, _ | ⟨b, _ | ⟨c, _ | ⟨d, t⟩⟩⟩⟩
  · simp [feasible, LinearProgram.get_variables] at hx
  · simp [feasible, LinearProgram.get_variables] at hx
  · simp [feasible, LinearProgram.get_variables] at hx
  · simp only [feasible, bound_admits, kind_admits, expression_value,
      LinearProgram.get_variables, LinearProgram.constraints, Bound.bound_type,
      Variable.variable_type, LinearExpression.coefficients, List.zip_cons_cons,
      List.zip_nil_right, List.all_cons, List.all_nil, List.map_cons, List.map_nil,
      List.sum_cons, List.sum_nil, List.length_cons, List.length_nil, Bool.and_true,
      Bool.and_eq_true, decide_eq_true_eq, List.getD_cons_zero, List.getD_cons_succ] at hx
    simp only [objective_at, expression_value, LinearProgram.objective,
      LinearExpression.coefficients, List.map_cons, List.map_nil, List.sum_cons, List.sum_nil,
      List.getD_cons_zero, List.getD_cons_succ]
    obtain ⟨⟨_, ⟨⟨_, _⟩, ⟨_, _⟩, _, _⟩⟩, ⟨_, _⟩, _⟩ := hx
    linarith
  · simp [feasible, LinearProgram.get_variables] at hx

/-- C16: the program built by `lp_problem()` has three `CONTINUOUS` variables
bounded `DOUBLE` 0 to 0.5, objective coefficients -0.5, 0.5, -1.0, row
`x1 - 0.5 x2` bounded `DOUBLE` 0 to 0.2 and row `-x2 + x3` bounded `UPPER` 0.4;
read with `lower <= Σ coeff·x <= upper` by bound kind, the point
(0.25, 0.1, 0.5) is feasible and no feasible point has a smaller objective value. -/
theorem lp_problem_optimum (ov : ℚ) :
    ((lp_problem ov).get_variables =
        [{ bound_type_ := DOUBLE, lower_bound_ := 0, upper_bound_ := 1 / 2,
            variable_type_ := CONTINUOUS },
          { bound_type_ := DOUBLE, lower_bound_ := 0, upper_bound_ := 1 / 2,
            variable_type_ := CONTINUOUS },
          { bound_type_ := DOUBLE, lower_bound_ := 0, upper_bound_ := 1 / 2,
            variable_type_ := CONTINUOUS }] ∧
      (lp_problem ov).objective.coefficients = [(0, -1 / 2), (1, 1 / 2), (2, -1)] ∧
      (lp_problem ov).constraints =
        [{ coefficients_ := [(0, 1), (1, -1 / 2)], bound_type_ := DOUBLE,
            lower_bound_ := 0, upper_bound_ := 1 / 5 },
          { coefficients_ := [(1, -1), (2, 1)], bound_type_ := UPPER,
            lower_bound_ := -DBL_MAX, upper_bound_ := 2 / 5 }]) ∧
    feasible (lp_problem ov) lp_expected = true ∧
    ∀ x, feasible (lp_problem ov) x = true →
      objective_at (lp_problem ov) lp_expected ≤ objective_at (lp_problem ov) x := by
  refine ⟨⟨rfl, rfl, rfl⟩, lp_expected_feasible ov, ?_⟩
  intro x hx
  rw [lp_expected_objective]
  exact lp_problem_feasible_bound ov x hx

/-- C17, as stated, fails: the stored objective of `lp_problem()` has the value
`-0.5 * 0.25 + 0.5 * 0.1 - 1.0 * 0.5 = -0.575` at (0.25, 0.1, 0.5), not -0.675. -/
theorem lp_objective_not_minus_0675 :
    objective_at (lp_problem 0) lp_expected = -23 / 40 ∧
    objective_at (lp_problem 0) lp_expected ≠ -27 / 40 := by
  rw [lp_expected_objective]
  norm_num

/-- C17, amended: the stored objective of `lp_problem()` has the coefficients
-0.5, 0.5, -1.0 and no constant term; its value at (0.25, 0.1, 0.5) is -0.575, and
-0.575 is the minimum objective value of the program: the point is feasible and
every feasible point has objective value at least -0.575. -/
theorem lp_objective_minimum (ov : ℚ) :
    (lp_problem ov).objective =
      ((LinearExpression.LinearExpression.add_coefficient 0 (-1 / 2)).add_coefficient 1
        (1 / 2)).add_coefficient 2 (-1) ∧
    (lp_problem ov).objective.coefficients = [(0, -1 / 2), (1, 1 / 2), (2, -1)] ∧
    objective_at (lp_problem ov) lp_expected = -23 / 40 ∧
    feasible (lp_problem ov) lp_expected = true ∧
    ∀ x, feasible (lp_problem ov) x = true → -23 / 40 ≤ objective_at (lp_problem ov) x :=
  ⟨rfl, rfl, lp_expected_objective ov, lp_expected_feasible ov, lp_problem_feasible_bound ov⟩

theorem mip_problem_fields (ov : ℚ) :
    mip_problem ov =
      { variables_ :=
          [{ bound_type_ := DOUBLE, lower_bound_ := 0, upper_bound_ := 40,
              variable_type_ := CONTINUOUS },
            { bound_type_ := FREE, lower_bound_ := -DBL_MAX, upper_bound_ := DBL_MAX,
              variable_type_ := CONTINUOUS },
            { bound_type_ := FREE, lower_bound_ := -DBL_MAX, upper_bound_ := DBL_MAX,
              variable_type_ := CONTINUOUS },
            { bound_type_ := DOUBLE, lower_bound_ := 2, upper_bound_ := 3,
              variable_type_ := INTEGER }],
        constraints_ :=
          [{ coefficients_ := [(0, -1), (1, 1), (2, 1), (3, 10)], bound_type_ := UPPER,
              lower_bound_ := -DBL_MAX, upper_bound_ := 20 },
            { coefficients_ := [(0, 1), (1, -3), (2, 1)], bound_type_ := UPPER,
              lower_bound_ := -DBL_MAX, upper_bound_ := 30 },
            { coefficients_ := [(1, 1), (3, -7 / 2)], bound_type_ := FIXED,
              lower_bound_ := 0, upper_bound_ := 0 }],
        objective_ := { coefficients_ := [(0, -1 * 1), (1, -1 * 2), (2, -1 * 3), (3, -1 * 1)] },
        objective_value_ := ov } :=
  rfl

theorem mip_expected_feasible (ov : ℚ) : feasible (mip_problem ov) mip_expected = true := by
  rw [mip_problem_fields]
  simp only [mip_expected, feasible, bound_admits, kind_admits, expression_value,
    LinearProgram.get_variables, LinearProgram.constraints, Bound.bound_type,
    Variable.variable_type, LinearExpression.coefficients, List.zip_cons_cons,
    List.zip_nil_right, List.all_cons, List.all_nil, List.map_cons, List.map_nil,
    List.sum_cons, List.sum_nil, List.length_cons, List.length_nil, Bool.and_true,
    Bool.and_eq_true, decide_eq_true_eq, List.getD_cons_zero, List.getD_cons_succ]
  norm_num

theorem mip_expected_objective (ov : ℚ) :
    objective_at (mip_problem ov) mip_expected = -245 / 2 := by
  rw [mip_problem_fields]
  simp only [mip_expected, objective_at, expression_value, LinearProgram.objective,
    LinearExpression.coefficients, List.map_cons, List.map_nil, List.sum_cons, List.sum_nil,
    List.getD_cons_zero, List.getD_cons_succ]
  norm_num

theorem rat_whole_between_two_three (d : ℚ) (hden : d.den = 1) (h2 : 2 ≤ d) (h3 : d ≤ 3) :
    d = 2 ∨ d = 3 := by
  have hd : ((d.num : ℤ) : ℚ) = d := (Rat.den_eq_one_iff d).1 hden
  rw [← hd] at h2 h3 ⊢
  have h2' : (2 : ℤ) ≤ d.num := by exact_mod_cast h2
  have h3' : d.num ≤ (3 : ℤ) := by exact_mod_cast h3
  have : d.num = 2 ∨ d.num = 3 := by omega
  rcases this with h | h
  · left
    rw [h]
    norm_num
  · right
    rw [h]
    norm_num

theorem mip_problem_feasible_bound (ov : ℚ) (x : List ℚ)
    (hx : feasible (mip_problem ov) x = true) :
    -245 / 2 ≤ objective_at (mip_problem ov) x ∧ mip_maximand x ≤ 245 / 2 ∧
      objective_at (mip_problem ov) x = -mip_maximand x := by
  rw [mip_problem_fields] at hx ⊢
  rcases x with _ | ⟨a, _ | ⟨b, _ | ⟨c, _ | ⟨d, _ | ⟨e, t⟩⟩⟩⟩⟩
  · simp [feasible, LinearProgram.get_variables] at hx
  · simp [feasible, LinearProgram.get_variables] at hx
  · simp [feasible, LinearProgram.get_variables] at hx
  · simp [feasible, LinearProgram.get_variables] at hx
  · simp only [feasible, bound_admits, kind_admits, expression_value,
      LinearProgram.get_variables, LinearProgram.constraints, Bound.bound_type,
      Variable.variable_type, LinearExpression.coefficients, List.zip_cons_cons,
      List.zip_nil_right, List.all_cons, List.all_nil, List.map_cons, List.map_nil,
      List.sum_cons, List.sum_nil, List.length_cons, List.length_nil, Bool.and_true,
      Bool.true_and, Bool.and_eq_true, decide_eq_true_eq, List.getD_cons_zero,
      List.getD_cons_succ] at hx
    simp only [objective_at, mip_maximand, expression_value, LinearProgram.objective,
      LinearExpression.coefficients, List.map_cons, List.map_nil, List.sum_cons, List.sum_nil,
      List.getD_cons_zero, List.getD_cons_succ]
    obtain ⟨⟨_, ⟨_, ha⟩, ⟨hd2, hd3⟩, hden⟩, h1, h2, h3, h4⟩ := hx
    have hobj : -1 * 1 * a + (-1 * 2 * b + (-1 * 3 * c + (-1 * 1 * d + 0))) =
        -(a + 2 * b + 3 * c + d) := by ring
    rw [hobj]
    have hmax : a + 2 * b + 3 * c + d ≤ 245 / 2 := by
      rcases rat_whole_between_two_three d hden hd2 hd3 with hd | hd
      · subst hd
        linarith
      · subst hd
        linarith
    exact ⟨by linarith, hmax, rfl⟩
  · simp [feasible, LinearProgram.get_variables] at hx

theorem mip_expected_maximand : mip_maximand mip_expected = 245 / 2 := by
  simp only [mip_maximand, mip_expected, List.getD_cons_zero, List.getD_cons_succ]
  norm_num

/-- C18: the program built by `mip_problem()` has `x1` continuous in 0 to 40,
`x2` and `x3` continuous with an unset bound, `x4` integer in 2 to 3, the stored
objective coefficients -1, -2, -3, -1 and the rows `-x1 + x2 + x3 + 10 x4 <= 20`,
`x1 - 3 x2 + x3 <= 30`, `x2 - 3.5 x4 = 0`. With an unset bound read as free, the
point (40, 10.5, 19.5, 3) is feasible with `x4` whole, no feasible point has a
smaller stored objective value, no feasible point has a larger value of
`x1 + 2 x2 + 3 x3 + x4`, and the minimum -122.5 is the negation of that maximum. -/
theorem mip_problem_optimum (ov : ℚ) :
    ((mip_problem ov).get_variables =
        [{ bound_type_ := DOUBLE, lower_bound_ := 0, upper_bound_ := 40,
            variable_type_ := CONTINUOUS },
          { bound_type_ := FREE, lower_bound_ := -DBL_MAX, upper_bound_ := DBL_MAX,
            variable_type_ := CONTINUOUS },
          { bound_type_ := FREE, lower_bound_ := -DBL_MAX, upper_bound_ := DBL_MAX,
            variable_type_ := CONTINUOUS },
          { bound_type_ := DOUBLE, lower_bound_ := 2, upper_bound_ := 3,
            variable_type_ := INTEGER }] ∧
      (mip_problem ov).objective.coefficients = [(0, -1), (1, -2), (2, -3), (3, -1)] ∧
      (mip_problem ov).constraints =
        [{ coefficients_ := [(0, -1), (1, 1), (2, 1), (3, 10)], bound_type_ := UPPER,
            lower_bound_ := -DBL_MAX, upper_bound_ := 20 },
          { coefficients_ := [(0, 1), (1, -3), (2, 1)], bound_type_ := UPPER,
            lower_bound_ := -DBL_MAX, upper_bound_ := 30 },
          { coefficients_ := [(1, 1), (3, -7 / 2)], bound_type_ := FIXED,
            lower_bound_ := 0, upper_bound_ := 0 }]) ∧
    (feasible (mip_problem ov) mip_expected = true ∧
      kind_admits INTEGER (mip_expected.getD 3 0) = true) ∧
    (∀ x, feasible (mip_problem ov) x = true →
      objective_at (mip_problem ov) mip_expected ≤ objective_at (mip_problem ov) x) ∧
    (∀ x, feasible (mip_problem ov) x = true → mip_maximand x ≤ mip_maximand mip_expected) ∧
    (∀ x, objective_at (mip_problem ov) x = -mip_maximand x) ∧
    objective_at (mip_problem ov) mip_expected = -mip_maximand mip_expected ∧
    objective_at (mip_problem ov) mip_expected = -245 / 2 := by
  refine ⟨⟨rfl, ?_, rfl⟩, ⟨mip_expected_feasible ov, ?_⟩, ?_, ?_, ?_, ?_,
    mip_expected_objective ov⟩
  · rw [mip_problem_fields]
    simp only [LinearProgram.objective, LinearExpression.coefficients]
    norm_num
  · simp only [mip_expected, kind_admits, List.getD_cons_zero, List.getD_cons_succ,
      decide_eq_true_eq]
    norm_num
  · intro x hx
    rw [mip_expected_objective]
    exact (mip_problem_feasible_bound ov x hx).1
  · intro x hx
    rw [mip_expected_maximand]
    exact (mip_problem_feasible_bound ov x hx).2.1
  · intro x
    rw [mip_problem_fields]
    simp only [objective_at, mip_maximand, expression_value, LinearProgram.objective,
      LinearExpression.coefficients, List.map_cons, List.map_nil, List.sum_cons, List.sum_nil]
    ring
  · rw [mip_expected_objective, mip_expected_maximand]
    norm_num

end PolyFit
